import Mathlib

/-!
# Verification of the ynoserver session hub and minigame lookup

Shallow embedding of the session/connection hub (`Session.addClient`,
`Session.processMsgs`, `Session.processMsg`, `getSessionClientsLen`) and of
`getRoomMinigames` from `server/minigames.go`.

Conventions of the embedding:
* Go byte slices are `List Nat` (each entry one byte value).
* `sync.Map` (the client registry) is an association list `List (String × SessionClient)`;
  `Load` is `Registry.load`, `Store` is `Registry.store`, `Range`-based counting and
  length are list operations, all matching the sequential semantics of the Go code.
* External collaborators (`getPlayerDataFromToken`, `getOrCreatePlayerData`,
  `getPlayerGameData`) are oracles bundled in a `PlayerStore`; the per-type business
  handlers (`handleI`, `handleName`, ...) are oracles bundled in `Handlers`.
* Side effects are reified: frames passed to `sendMsg` become `Frame` values (the
  segment list of the call site), spawned goroutines become the list of task names,
  and `writeLog` / `writeErrLog` calls become log-entry lists.
* The message and field delimiters (`mdelim`, `delim`) are package variables defined
  outside the analysed files; they are parameters here.
-/

set_option autoImplicit false

namespace Yno

/-- One segment passed to `sendMsg` (Go variadic `any`): the call sites in the
analysed code pass strings, ints and bools. -/
inductive Seg where
  | str : String → Seg
  | int : Int → Seg
  | bool : Bool → Seg
  deriving DecidableEq, Repr

/-- A queued outbound frame: the ordered segments of one `sendMsg` call. -/
abbrev Frame := List Seg

/-! ## `server/minigames.go` -/

/-- The `Minigame` struct of `server/minigames.go`. -/
structure Minigame where
  Id : String
  VarId : Int := 0
  InitialVarSync : Bool := false
  SwitchId : Int := 0
  SwitchValue : Bool := false
  Dev : Bool := false
  deriving DecidableEq, Repr

/-- `getRoomMinigames` from `server/minigames.go`.  The Go function reads the
package configuration `serverConfig.GameName`; that configuration value is the
explicit first argument here. -/
def getRoomMinigames (gameName : String) (roomId : Int) : List Minigame :=
  if gameName = "yume" then
    if roomId = 155 then [{ Id := "nasu", VarId := 88, SwitchId := 215 }] else []
  else if gameName = "2kki" then
    if roomId = 102 then [{ Id := "rby", VarId := 1010, InitialVarSync := true }]
    else if roomId = 618 then [{ Id := "rby_ex", VarId := 79, InitialVarSync := true }]
    else if roomId = 344 then
      [{ Id := "fuji_ex", VarId := 3218, SwitchId := 3219, SwitchValue := true }]
    else []
  else []

/-! ## Session hub data model -/

/-- The `SessionClient` per-connection state, restricted to the fields the analysed
code reads or writes (the transport handle and the two channels are modelled by
the reified effect lists instead).  Default values are Go zero values. -/
structure SessionClient where
  uuid : String := ""
  name : String := ""
  rank : Int := 0
  badge : String := ""
  account : Bool := false
  muted : Bool := false
  id : Nat := 0
  ip : String := ""
  spriteName : String := ""
  spriteIndex : Int := 0
  systemName : String := ""
  deriving DecidableEq, Repr

/-- The `clients sync.Map` registry, as an association list keyed by uuid. -/
abbrev Registry := List (String × SessionClient)

/-- `clients.Load key`. -/
def Registry.load (r : Registry) (key : String) : Option SessionClient :=
  (r.find? (fun p => p.1 = key)).map Prod.snd

/-- `clients.Store key value`: replace the entry if the key is present,
otherwise append a new entry. -/
def Registry.store (r : Registry) (key : String) (value : SessionClient) : Registry :=
  if (r.find? (fun p => p.1 = key)).isSome then
    r.map (fun p => if p.1 = key then (key, value) else p)
  else
    r ++ [(key, value)]

/-- The `clients.Range` loop of `addClient` counting registered clients whose
`ip` field equals the given address. -/
def Registry.countIp (r : Registry) (ip : String) : Nat :=
  (r.filter (fun p => p.2.ip = ip)).length

/-- `getSessionClientsLen`: the `clients.Range` loop counting all entries. -/
def getSessionClientsLen (r : Registry) : Nat :=
  r.length

/-- The mutable state owned by the hub: the registry and `Session.lastId`. -/
structure HubState where
  clients : Registry
  lastId : Nat
  deriving DecidableEq, Repr

/-- A `writeErrLog ip category message` call. -/
structure ErrLogEntry where
  ip : String
  category : String
  message : String
  deriving DecidableEq, Repr

/-- A `writeLog ip category message status` call. -/
structure LogEntry where
  ip : String
  category : String
  message : String
  status : Nat
  deriving DecidableEq, Repr

/-- Oracles for the external identity / game-data store consulted by
`addClient`.  `getPlayerDataFromToken token` yields
(uuid, name, rank, badge, banned, muted); `getOrCreatePlayerData ip` yields
(uuid, banned, muted); `getPlayerGameData uuid` yields
(spriteName, spriteIndex, systemName). -/
structure PlayerStore where
  getPlayerDataFromToken : String → String × String × Int × String × Bool × Bool
  getOrCreatePlayerData : String → String × Bool × Bool
  getPlayerGameData : String → String × Int × String

/-! ## `Session.addClient` -/

/-- The identity-resolution prefix of `addClient` (lines up to the `banned`
check): build the fresh `SessionClient`, fill it from the token lookup when a
token is supplied, mark it as an account when that yielded a uuid, otherwise
fall back to the address-based lookup-or-create.  Returns the populated client
and the `banned` flag variable. -/
def resolveIdentity (P : PlayerStore) (ip token : String) : SessionClient × Bool :=
  let client : SessionClient := { ip := ip }
  let (client, banned) :=
    if token ≠ "" then
      let (uuid, nm, rank, badge, bannedTok, muted) := P.getPlayerDataFromToken token
      ({ client with
          uuid := uuid, name := nm, rank := rank, badge := badge,
          muted := muted }, bannedTok)
    else
      (client, false)
  if client.uuid ≠ "" then
    ({ client with account := true }, banned)
  else
    let (uuid, bannedIp, muted) := P.getOrCreatePlayerData ip
    ({ client with uuid := uuid, muted := muted }, bannedIp)

/-- Everything one `addClient` call does: the hub state it leaves behind, the
frames it enqueued to the new client, the goroutines it spawned, and its log
output. -/
structure AddResult where
  state : HubState
  sent : List Frame
  tasks : List String
  errLogs : List ErrLogEntry
  logs : List LogEntry
  deriving DecidableEq, Repr

/-- `Session.addClient` (the transport handle is not modelled; frames and
goroutines are reified into the result). -/
def addClient (P : PlayerStore) (st : HubState) (ip token : String) : AddResult :=
  let res := resolveIdentity P ip token
  let client := res.1
  let banned := res.2
  if banned then
    { state := st, sent := [], tasks := [],
      errLogs := [⟨ip, "session", "player is banned"⟩], logs := [] }
  else if (st.clients.load client.uuid).isSome then
    { state := st, sent := [], tasks := [],
      errLogs := [⟨ip, "session", "session already exists for uuid"⟩], logs := [] }
  else if 3 ≤ st.clients.countIp ip then
    { state := st, sent := [], tasks := [],
      errLogs := [⟨ip, "session", "too many connections from ip"⟩], logs := [] }
  else
    let client := if client.badge = "" then { client with badge := "null" } else client
    let client := { client with id := st.lastId }
    let lastId := st.lastId + 1
    let gd := P.getPlayerGameData client.uuid
    let client := { client with
                    spriteName := gd.1, spriteIndex := gd.2.1,
                    systemName := gd.2.2 }
    { state := { clients := st.clients.store client.uuid client, lastId := lastId },
      sent := [[Seg.str "s", Seg.str client.uuid, Seg.int client.rank,
                Seg.bool client.account, Seg.str client.badge]],
      tasks := ["msgProcessor", "msgWriter", "msgReader"],
      errLogs := [],
      logs := [⟨ip, "session", "connect", 200⟩] }

/-! ## Protocol codec: `strings.Split` and `utf8.Valid` -/

/-- Worker for `goSplit`, structurally recursive on a fuel argument that is
always at least the length of the remaining input, so the `0` branch is never
reached from `goSplit`.  `acc` holds the current field in reverse. -/
def goSplitAux (sep : List Char) : Nat → List Char → List Char → List (List Char)
  | 0, s, acc => [acc.reverse ++ s]
  | fuel + 1, s, acc =>
    match s with
    | [] => [acc.reverse]
    | c :: rest =>
      if sep.isPrefixOf (c :: rest) then
        acc.reverse :: goSplitAux sep fuel (List.drop sep.length (c :: rest)) []
      else
        goSplitAux sep fuel rest (c :: acc)

/-- The Go function `strings.Split s sep`: for a non-empty separator, split around every
non-overlapping leftmost occurrence of `sep`; for the empty separator, split
into the individual characters (so `strings.Split "" "" = []`). -/
def goSplit (s sep : String) : List String :=
  if sep = "" then
    s.toList.map (fun c => String.mk [c])
  else
    (goSplitAux sep.toList (s.toList.length + 1) s.toList []).map (fun l => String.mk l)

/-- Is `b` a UTF-8 continuation byte (`0x80 ≤ b ≤ 0xBF`)? -/
def isCont (b : Nat) : Bool :=
  128 ≤ b && b ≤ 191

/-- Decode a byte list as UTF-8, exactly per the Go `unicode/utf8` acceptance
(RFC 3629: no overlong encodings, no surrogates, max U+10FFFF): `none` when
the bytes are not valid UTF-8, otherwise the code-point sequence. -/
def utf8Decode : List Nat → Option (List Nat)
  | [] => some []
  | b0 :: rest =>
    if b0 < 128 then
      (utf8Decode rest).map (fun cs => b0 :: cs)
    else if 194 ≤ b0 && b0 ≤ 223 then
      match rest with
      | b1 :: rest1 =>
        if isCont b1 then
          (utf8Decode rest1).map (fun cs => ((b0 - 192) * 64 + (b1 - 128)) :: cs)
        else none
      | _ => none
    else if 224 ≤ b0 && b0 ≤ 239 then
      match rest with
      | b1 :: b2 :: rest2 =>
        let lo1 := if b0 = 224 then 160 else 128
        let hi1 := if b0 = 237 then 159 else 191
        if (lo1 ≤ b1 && b1 ≤ hi1) && isCont b2 then
          (utf8Decode rest2).map
            (fun cs => ((b0 - 224) * 4096 + (b1 - 128) * 64 + (b2 - 128)) :: cs)
        else none
      | _ => none
    else if 240 ≤ b0 && b0 ≤ 244 then
      match rest with
      | b1 :: b2 :: b3 :: rest3 =>
        let lo1 := if b0 = 240 then 144 else 128
        let hi1 := if b0 = 244 then 143 else 191
        if (lo1 ≤ b1 && b1 ≤ hi1) && (isCont b2 && isCont b3) then
          (utf8Decode rest3).map
            (fun cs =>
              ((b0 - 240) * 262144 + (b1 - 128) * 4096 + (b2 - 128) * 64 + (b3 - 128)) :: cs)
        else none
      | _ => none
    else none

/-- The Go function `utf8.Valid`. -/
def utf8Valid (data : List Nat) : Bool :=
  (utf8Decode data).isSome

/-- The Go conversion `string(data)`.  `processMsgs` applies it only after
`utf8.Valid` has succeeded, so the value on invalid input is irrelevant and a
junk value is used there. -/
def utf8String (data : List Nat) : String :=
  String.mk (((utf8Decode data).getD []).map Char.ofNat)

/-! ## Dispatcher: `Session.processMsg` and `Session.processMsgs` -/

/-- Oracles for the out-of-scope per-type business handlers: each field gives
the error result of the corresponding `Session.handle*` method.  Handlers that
receive the message fields in Go take them here as well. -/
structure Handlers where
  handleI : SessionClient → Option String
  handleName : List String → SessionClient → Option String
  handlePloc : List String → SessionClient → Option String
  handleGSay : List String → SessionClient → Option String
  handlePSay : List String → SessionClient → Option String
  handlePt : SessionClient → Option String
  handleEp : SessionClient → Option String
  handleE : SessionClient → Option String

/-- Everything one `processMsg` call does: its returned error, the tag of the
handler it invoked (`none` for the empty field list and for unknown tags), the
frames it enqueued to the sender itself (the `pt` fallback), and its
`writeLog` output. -/
structure MsgOut where
  err : Option String
  dispatched : Option String
  sent : List Frame
  logs : List LogEntry
  deriving DecidableEq, Repr

/-- The `switch msgFields[0]` of `processMsg`, for a non-empty field list:
returns (err, invoked handler tag, frames sent to the sender). -/
def processMsgSwitch (H : Handlers) (sender : SessionClient) (tag : String)
    (msgFields : List String) : Option String × Option String × List Frame :=
  if tag = "i" then (H.handleI sender, some "i", [])
  else if tag = "name" then (H.handleName msgFields sender, some "name", [])
  else if tag = "ploc" then (H.handlePloc msgFields sender, some "ploc", [])
  else if tag = "gsay" then (H.handleGSay msgFields sender, some "gsay", [])
  else if tag = "psay" then (H.handlePSay msgFields sender, some "psay", [])
  else if tag = "pt" then
    let e := H.handlePt sender
    (e, some "pt", if e.isSome then [[Seg.str "pt", Seg.str "null"]] else [])
  else if tag = "ep" then (H.handleEp sender, some "ep", [])
  else if tag = "e" then (H.handleE sender, some "e", [])
  else (some "unknown message type", none, [])

/-- The body of `processMsg` after `msgFields := strings.Split(msgStr, delim)`:
an empty field list returns the nil error immediately; otherwise dispatch on
`msgFields[0]`, return the error if any, else `writeLog` with status 200. -/
def processMsgFields (H : Handlers) (sender : SessionClient) (msgStr : String) :
    List String → MsgOut
  | [] => { err := none, dispatched := none, sent := [], logs := [] }
  | tag :: rest =>
    let (err, dispatched, sent) := processMsgSwitch H sender tag (tag :: rest)
    match err with
    | some e => { err := some e, dispatched := dispatched, sent := sent, logs := [] }
    | none =>
      { err := none, dispatched := dispatched, sent := sent,
        logs := [⟨sender.ip, "session", msgStr, 200⟩] }

/-- `Session.processMsg`. -/
def processMsg (H : Handlers) (delim : String) (sender : SessionClient)
    (msgStr : String) : MsgOut :=
  processMsgFields H sender msgStr (goSplit msgStr delim)

/-- Everything one `processMsgs` call does: the returned error list and the
per-frame `processMsg` outcomes in buffer order (empty when whole-buffer
validation rejected the buffer before any splitting). -/
structure MsgsOut where
  errs : List String
  results : List MsgOut
  deriving DecidableEq, Repr

/-- `Session.processMsgs`: whole-buffer validation (size, byte range, UTF-8),
then split on the message delimiter and process each frame, collecting the
non-nil errors. -/
def processMsgs (H : Handlers) (mdelim delim : String) (sender : SessionClient)
    (data : List Nat) : MsgsOut :=
  if 4096 < data.length then
    { errs := ["bad request size"], results := [] }
  else if data.any (fun v => v < 32) then
    { errs := ["bad byte sequence"], results := [] }
  else if !utf8Valid data then
    { errs := ["invalid UTF-8"], results := [] }
  else
    let results := (goSplit (utf8String data) mdelim).map (processMsg H delim sender)
    { errs := results.filterMap (fun r => r.err), results := results }

/-- Derived view of the success path of `addClient`: the fully populated
client that gets stored (badge normalised, id assigned, game data fetched). -/
def finalClient (P : PlayerStore) (st : HubState) (res1 : SessionClient) : SessionClient :=
  let c1 := if res1.badge = "" then { res1 with badge := "null" } else res1
  let c2 := { c1 with id := st.lastId }
  let gd := P.getPlayerGameData c2.uuid
  { c2 with spriteName := gd.1, spriteIndex := gd.2.1, systemName := gd.2.2 }

/-- Derived view of the success path of `addClient`: the whole result. -/
def successResult (P : PlayerStore) (st : HubState) (ip : String)
    (res1 : SessionClient) : AddResult :=
  let c := finalClient P st res1
  { state := { clients := st.clients.store c.uuid c, lastId := st.lastId + 1 },
    sent := [[Seg.str "s", Seg.str c.uuid, Seg.int c.rank,
              Seg.bool c.account, Seg.str c.badge]],
    tasks := ["msgProcessor", "msgWriter", "msgReader"],
    errLogs := [],
    logs := [⟨ip, "session", "connect", 200⟩] }

/-! ## Concrete instances used by witnesses -/

/-- The eight type tags with a `case` in the `processMsg` switch. -/
def knownTags : List String :=
  ["i", "name", "ploc", "gsay", "psay", "pt", "ep", "e"]

/-- A concrete handler bundle: every handler succeeds except `handlePt`,
which reports that the sender has no party. -/
def sampleHandlers : Handlers where
  handleI := fun _ => none
  handleName := fun _ _ => none
  handlePloc := fun _ _ => none
  handleGSay := fun _ _ => none
  handlePSay := fun _ _ => none
  handlePt := fun _ => some "player not in a party"
  handleEp := fun _ => none
  handleE := fun _ => none

/-- A concrete identity store: token lookups fail, address lookups yield the
anonymous uuid "anon-1" with the given banned flag. -/
def sampleStore (banned : Bool) : PlayerStore where
  getPlayerDataFromToken := fun _ => ("", "", 0, "", false, false)
  getOrCreatePlayerData := fun _ => ("anon-1", banned, false)
  getPlayerGameData := fun _ => ("", 0, "")

/-- C10: `getRoomMinigames` is a pure function returning at most one minigame,
non-empty exactly on the four listed (game, room) pairs. -/
theorem getRoomMinigames_characterisation (gameName : String) (roomId : Int) :
    (getRoomMinigames gameName roomId).length ≤ 1 ∧
    (getRoomMinigames gameName roomId ≠ [] ↔
      (gameName, roomId) ∈
        [("yume", (155 : Int)), ("2kki", 102), ("2kki", 618), ("2kki", 344)]) := by
  unfold getRoomMinigames
  by_cases hy : gameName = "yume" <;> by_cases h2 : gameName = "2kki" <;>
    simp_all <;>
    (try by_cases r155 : roomId = 155) <;>
    (try by_cases r102 : roomId = 102) <;>
    (try by_cases r618 : roomId = 618) <;>
    (try by_cases r344 : roomId = 344) <;>
    simp_all

/-! ## Helper lemmas -/

theorem resolveIdentity_ip (P : PlayerStore) (ip token : String) :
    (resolveIdentity P ip token).1.ip = ip := by
  unfold resolveIdentity
  dsimp only
  split <;> split <;> simp_all

theorem Registry.load_isSome_iff (r : Registry) (k : String) :
    (r.load k).isSome = true ↔ k ∈ r.map Prod.fst := by
  simp [Registry.load, List.find?_isSome, Option.isSome_map]

theorem Registry.store_eq_append (r : Registry) (k : String) (v : SessionClient)
    (h : (r.load k).isSome = false) : r.store k v = r ++ [(k, v)] := by
  have h' : (r.find? (fun p => p.1 = k)).isSome = false := by
    simpa [Registry.load, Option.isSome_map] using h
  simp [Registry.store, h']

theorem Registry.countIp_append (r : Registry) (k : String) (v : SessionClient)
    (a : String) :
    Registry.countIp (r ++ [(k, v)]) a =
      Registry.countIp r a + (if v.ip = a then 1 else 0) := by
  simp only [Registry.countIp, List.filter_append, List.length_append]
  split <;> simp_all

theorem Registry.load_append_self (r : Registry) (k : String) (v : SessionClient)
    (h : (r.load k).isSome = false) :
    Registry.load (r ++ [(k, v)]) k = some v := by
  have h' : r.find? (fun p => p.1 = k) = none := by
    rcases hf : r.find? (fun p => p.1 = k) with _ | p
    · exact hf
    · rw [Registry.load, hf] at h
      simp at h
  simp [Registry.load, List.find?_append, h']

/-- Every rejection path of `addClient` (banned, duplicate, IP limit) leaves
the state unchanged and sends/spawns nothing. -/
theorem addClient_reject_state (P : PlayerStore) (st : HubState) (ip token : String)
    (h : (resolveIdentity P ip token).2 = true ∨
         (st.clients.load (resolveIdentity P ip token).1.uuid).isSome = true ∨
         3 ≤ st.clients.countIp ip) :
    (addClient P st ip token).state = st ∧
    (addClient P st ip token).sent = [] ∧
    (addClient P st ip token).tasks = [] := by
  unfold addClient
  dsimp only
  rcases h with h | h | h <;> (repeat' split) <;> simp_all

theorem processMsgFields_unknown_tag (H : Handlers) (sender : SessionClient)
    (msgStr tag : String) (rest : List String) (h : tag ∉ knownTags) :
    (processMsgFields H sender msgStr (tag :: rest)).err =
      some "unknown message type" := by
  simp only [knownTags, List.mem_cons, List.not_mem_nil, or_false, not_or] at h
  obtain ⟨h1, h2, h3, h4, h5, h6, h7, h8⟩ := h
  simp [processMsgFields, processMsgSwitch, h1, h2, h3, h4, h5, h6, h7, h8]

@[simp] theorem finalClient_uuid (P : PlayerStore) (st : HubState) (c : SessionClient) :
    (finalClient P st c).uuid = c.uuid := by
  unfold finalClient
  split <;> rfl

@[simp] theorem finalClient_rank (P : PlayerStore) (st : HubState) (c : SessionClient) :
    (finalClient P st c).rank = c.rank := by
  unfold finalClient
  split <;> rfl

@[simp] theorem finalClient_account (P : PlayerStore) (st : HubState) (c : SessionClient) :
    (finalClient P st c).account = c.account := by
  unfold finalClient
  split <;> rfl

@[simp] theorem finalClient_ip (P : PlayerStore) (st : HubState) (c : SessionClient) :
    (finalClient P st c).ip = c.ip := by
  unfold finalClient
  split <;> rfl

@[simp] theorem finalClient_badge (P : PlayerStore) (st : HubState) (c : SessionClient) :
    (finalClient P st c).badge = if c.badge = "" then "null" else c.badge := by
  unfold finalClient
  split <;> simp_all

/-- On the success path (not banned, no duplicate, fewer than 3 clients from
the address) `addClient` produces exactly the derived `successResult`. -/
theorem addClient_success_eq (P : PlayerStore) (st : HubState) (ip token : String)
    (hban : (resolveIdentity P ip token).2 = false)
    (hdup : (st.clients.load (resolveIdentity P ip token).1.uuid).isSome = false)
    (hip : st.clients.countIp ip < 3) :
    addClient P st ip token = successResult P st ip (resolveIdentity P ip token).1 := by
  have hip' : ¬ 3 ≤ st.clients.countIp ip := by omega
  unfold addClient successResult finalClient
  simp [hban, hdup, hip']

theorem processMsgFields_sent_eq (H : Handlers) (sender : SessionClient)
    (msgStr tag : String) (rest : List String) :
    (processMsgFields H sender msgStr (tag :: rest)).sent =
      (processMsgSwitch H sender tag (tag :: rest)).2.2 := by
  unfold processMsgFields
  dsimp only
  rcases h : processMsgSwitch H sender tag (tag :: rest) with ⟨err, d, s⟩
  cases err <;> rfl

/-! ## Claim theorems -/

/-- C1: a decoded frame whose field list is empty is a no-op for `processMsg`:
no handler is dispatched, no error (in particular not "unknown message type")
is returned, nothing is sent or logged; correspondingly, whenever the split of
`msgStr` on the field delimiter is the empty list, `processMsg` is a no-op. -/
theorem processMsg_empty_field_list (H : Handlers) (sender : SessionClient) :
    (∀ msgStr : String, processMsgFields H sender msgStr [] =
      { err := none, dispatched := none, sent := [], logs := [] }) ∧
    (∀ delim msgStr : String, goSplit msgStr delim = [] →
      processMsg H delim sender msgStr =
        { err := none, dispatched := none, sent := [], logs := [] }) := by
  refine ⟨fun msgStr => rfl, fun delim msgStr h => ?_⟩
  unfold processMsg
  rw [h]
  rfl

/-- Witness for C1 at the one concrete input whose field list is empty
(`strings.Split("", "")` is the empty slice). -/
theorem processMsg_empty_field_list_witness :
    goSplit "" "" = [] ∧
    processMsg sampleHandlers "" { } "" =
      { err := none, dispatched := none, sent := [], logs := [] } :=
  ⟨rfl, (processMsg_empty_field_list sampleHandlers { }).2 "" "" rfl⟩

/-- C2: an admission whose resolved identity is banned does nothing but write
one error log: the hub state is untouched (no registry insert), no "s" hello
frame is enqueued, no pipeline goroutine is started. -/
theorem addClient_banned_rejects (P : PlayerStore) (st : HubState) (ip token : String)
    (h : (resolveIdentity P ip token).2 = true) :
    addClient P st ip token =
      { state := st, sent := [], tasks := [],
        errLogs := [⟨ip, "session", "player is banned"⟩], logs := [] } := by
  unfold addClient
  simp [h]

/-- Witness for C2: an anonymous connection whose address-based identity is
banned is rejected with only the error log. -/
theorem addClient_banned_rejects_witness :
    (resolveIdentity (sampleStore true) "9.9.9.9" "").2 = true ∧
    addClient (sampleStore true) ⟨[], 0⟩ "9.9.9.9" "" =
      { state := ⟨[], 0⟩, sent := [], tasks := [],
        errLogs := [⟨"9.9.9.9", "session", "player is banned"⟩], logs := [] } :=
  ⟨rfl, addClient_banned_rejects (sampleStore true) ⟨[], 0⟩ "9.9.9.9" "" rfl⟩

/-- C9: every rejected admission (banned, duplicate session, or IP limit)
leaves the hub state — the client registry and the `lastId` counter — exactly
as it was. -/
theorem addClient_rejected_leaves_state (P : PlayerStore) (st : HubState)
    (ip token : String)
    (h : (resolveIdentity P ip token).2 = true ∨
         (st.clients.load (resolveIdentity P ip token).1.uuid).isSome = true ∨
         3 ≤ st.clients.countIp ip) :
    (addClient P st ip token).state.clients = st.clients ∧
    (addClient P st ip token).state.lastId = st.lastId := by
  unfold addClient
  dsimp only
  rcases h with h | h | h <;> (repeat' split) <;> simp_all

/-- Witness for C9: the IP-limit rejection (three clients already registered
from the address) leaves registry and counter unchanged. -/
theorem addClient_rejected_leaves_state_witness :
    ((resolveIdentity (sampleStore false) "7.7.7.7" "").2 = true ∨
     ((HubState.mk [("u1", { uuid := "u1", ip := "7.7.7.7" }),
                    ("u2", { uuid := "u2", ip := "7.7.7.7" }),
                    ("u3", { uuid := "u3", ip := "7.7.7.7" })] 3).clients.load
        (resolveIdentity (sampleStore false) "7.7.7.7" "").1.uuid).isSome = true ∨
     3 ≤ (HubState.mk [("u1", { uuid := "u1", ip := "7.7.7.7" }),
                       ("u2", { uuid := "u2", ip := "7.7.7.7" }),
                       ("u3", { uuid := "u3", ip := "7.7.7.7" })] 3).clients.countIp
           "7.7.7.7") ∧
    ((addClient (sampleStore false)
        (HubState.mk [("u1", { uuid := "u1", ip := "7.7.7.7" }),
                      ("u2", { uuid := "u2", ip := "7.7.7.7" }),
                      ("u3", { uuid := "u3", ip := "7.7.7.7" })] 3)
        "7.7.7.7" "").state.clients =
      [("u1", { uuid := "u1", ip := "7.7.7.7" }),
       ("u2", { uuid := "u2", ip := "7.7.7.7" }),
       ("u3", { uuid := "u3", ip := "7.7.7.7" })] ∧
     (addClient (sampleStore false)
        (HubState.mk [("u1", { uuid := "u1", ip := "7.7.7.7" }),
                      ("u2", { uuid := "u2", ip := "7.7.7.7" }),
                      ("u3", { uuid := "u3", ip := "7.7.7.7" })] 3)
        "7.7.7.7" "").state.lastId = 3) :=
  ⟨Or.inr (Or.inr (by decide)),
   addClient_rejected_leaves_state (sampleStore false) _ "7.7.7.7" ""
     (Or.inr (Or.inr (by decide)))⟩

/-- C3: an inbound buffer that is oversized (> 4096 bytes), contains a byte
below 32, or is not valid UTF-8 is rejected wholesale: no frame is processed
and the returned error list is exactly the one corresponding error, chosen in
the checking order of the code. -/
theorem processMsgs_rejects_invalid (H : Handlers) (mdelim delim : String)
    (sender : SessionClient) (data : List Nat)
    (h : 4096 < data.length ∨ data.any (fun v => v < 32) = true ∨
         utf8Valid data = false) :
    (processMsgs H mdelim delim sender data).results = [] ∧
    (processMsgs H mdelim delim sender data).errs =
      [if 4096 < data.length then "bad request size"
       else if data.any (fun v => v < 32) then "bad byte sequence"
       else "invalid UTF-8"] := by
  unfold processMsgs
  by_cases hs : 4096 < data.length
  · simp [hs]
  by_cases hb : data.any (fun v => v < 32) = true
  · simp [hs, hb]
  rw [Bool.not_eq_true] at hb
  have hu : utf8Valid data = false := by
    rcases h with h | h | h
    · exact absurd h hs
    · rw [hb] at h
      exact absurd h (by simp)
    · exact h
  simp [hs, hb, hu]

/-- Witness for C3: a one-byte buffer containing the control byte 10. -/
theorem processMsgs_rejects_invalid_witness :
    (4096 < [(10 : Nat)].length ∨ [(10 : Nat)].any (fun v => v < 32) = true ∨
      utf8Valid [10] = false) ∧
    ((processMsgs sampleHandlers "|" "," { } [10]).results = [] ∧
     (processMsgs sampleHandlers "|" "," { } [10]).errs = ["bad byte sequence"]) := by
  refine ⟨Or.inr (Or.inl (by decide)), ?_⟩
  have h := processMsgs_rejects_invalid sampleHandlers "|" "," { } [10]
    (Or.inr (Or.inl (by decide)))
  simpa using h

/-- C4: an admission whose resolved identifier is already registered is
rejected with no insertion, no hello frame and no pipeline tasks; and
`addClient` preserves key-uniqueness of the registry, so it holds at most one
client per identifier. -/
theorem addClient_duplicate_and_registry_unique (P : PlayerStore) (st : HubState)
    (ip token : String) :
    ((st.clients.load (resolveIdentity P ip token).1.uuid).isSome = true →
      (addClient P st ip token).state = st ∧
      (addClient P st ip token).sent = [] ∧
      (addClient P st ip token).tasks = []) ∧
    ((st.clients.map Prod.fst).Nodup →
      ((addClient P st ip token).state.clients.map Prod.fst).Nodup) := by
  constructor
  · intro h
    exact addClient_reject_state P st ip token (Or.inr (Or.inl h))
  · intro hnd
    by_cases hban : (resolveIdentity P ip token).2 = true
    · rw [(addClient_reject_state P st ip token (Or.inl hban)).1]
      exact hnd
    by_cases hdup : (st.clients.load (resolveIdentity P ip token).1.uuid).isSome = true
    · rw [(addClient_reject_state P st ip token (Or.inr (Or.inl hdup))).1]
      exact hnd
    by_cases hip : 3 ≤ st.clients.countIp ip
    · rw [(addClient_reject_state P st ip token (Or.inr (Or.inr hip))).1]
      exact hnd
    rw [Bool.not_eq_true] at hban hdup
    rw [addClient_success_eq P st ip token hban hdup (by omega)]
    unfold successResult
    dsimp only
    rw [Registry.store_eq_append _ _ _ (by simp only [finalClient_uuid]; exact hdup)]
    have hmem : (resolveIdentity P ip token).1.uuid ∉ st.clients.map Prod.fst := by
      rw [← Registry.load_isSome_iff]
      simp [hdup]
    simp [List.nodup_append, hnd, hmem]

/-- Witness for C4: a second connection for the already-registered identifier
"anon-1" is rejected without mutation, and the registry keys stay unique. -/
theorem addClient_duplicate_and_registry_unique_witness :
    ((addClient (sampleStore false)
        ⟨[("anon-1", { uuid := "anon-1", ip := "8.8.8.8" })], 1⟩ "8.8.8.8" "").state =
        ⟨[("anon-1", { uuid := "anon-1", ip := "8.8.8.8" })], 1⟩ ∧
     (addClient (sampleStore false)
        ⟨[("anon-1", { uuid := "anon-1", ip := "8.8.8.8" })], 1⟩ "8.8.8.8" "").sent = [] ∧
     (addClient (sampleStore false)
        ⟨[("anon-1", { uuid := "anon-1", ip := "8.8.8.8" })], 1⟩ "8.8.8.8" "").tasks = []) ∧
    ((addClient (sampleStore false)
        ⟨[("anon-1", { uuid := "anon-1", ip := "8.8.8.8" })], 1⟩ "8.8.8.8"
        "").state.clients.map Prod.fst).Nodup :=
  ⟨(addClient_duplicate_and_registry_unique (sampleStore false)
      ⟨[("anon-1", { uuid := "anon-1", ip := "8.8.8.8" })], 1⟩ "8.8.8.8" "").1
      (by decide),
   (addClient_duplicate_and_registry_unique (sampleStore false)
      ⟨[("anon-1", { uuid := "anon-1", ip := "8.8.8.8" })], 1⟩ "8.8.8.8" "").2
      (by decide)⟩

/-- C5: an admission from an address that already has 3 registered clients is
rejected before registration, and `addClient` never pushes the number of
clients per address above 3. -/
theorem addClient_ip_limit (P : PlayerStore) (st : HubState) (ip token : String) :
    (3 ≤ st.clients.countIp ip →
      (addClient P st ip token).state = st ∧
      (addClient P st ip token).sent = [] ∧
      (addClient P st ip token).tasks = []) ∧
    (∀ a : String, st.clients.countIp a ≤ 3 →
      (addClient P st ip token).state.clients.countIp a ≤ 3) := by
  constructor
  · intro h
    exact addClient_reject_state P st ip token (Or.inr (Or.inr h))
  · intro a ha
    by_cases hban : (resolveIdentity P ip token).2 = true
    · rw [(addClient_reject_state P st ip token (Or.inl hban)).1]
      exact ha
    by_cases hdup : (st.clients.load (resolveIdentity P ip token).1.uuid).isSome = true
    · rw [(addClient_reject_state P st ip token (Or.inr (Or.inl hdup))).1]
      exact ha
    by_cases hip : 3 ≤ st.clients.countIp ip
    · rw [(addClient_reject_state P st ip token (Or.inr (Or.inr hip))).1]
      exact ha
    rw [Bool.not_eq_true] at hban hdup
    rw [addClient_success_eq P st ip token hban hdup (by omega)]
    unfold successResult
    dsimp only
    rw [Registry.store_eq_append _ _ _ (by simp only [finalClient_uuid]; exact hdup)]
    rw [Registry.countIp_append]
    have hfip : (finalClient P st (resolveIdentity P ip token).1).ip = ip := by
      rw [finalClient_ip, resolveIdentity_ip]
    rw [hfip]
    by_cases haip : ip = a
    · subst haip
      rw [if_pos rfl]
      omega
    · rw [if_neg haip]
      omega

/-- Witness for C5: the 4th connection from address 7.7.7.7 is rejected and
the per-address count stays at 3. -/
theorem addClient_ip_limit_witness :
    ((addClient (sampleStore false)
        ⟨[("u1", { uuid := "u1", ip := "7.7.7.7" }),
          ("u2", { uuid := "u2", ip := "7.7.7.7" }),
          ("u3", { uuid := "u3", ip := "7.7.7.7" })], 3⟩ "7.7.7.7" "").state =
        ⟨[("u1", { uuid := "u1", ip := "7.7.7.7" }),
          ("u2", { uuid := "u2", ip := "7.7.7.7" }),
          ("u3", { uuid := "u3", ip := "7.7.7.7" })], 3⟩ ∧
     (addClient (sampleStore false)
        ⟨[("u1", { uuid := "u1", ip := "7.7.7.7" }),
          ("u2", { uuid := "u2", ip := "7.7.7.7" }),
          ("u3", { uuid := "u3", ip := "7.7.7.7" })], 3⟩ "7.7.7.7" "").sent = [] ∧
     (addClient (sampleStore false)
        ⟨[("u1", { uuid := "u1", ip := "7.7.7.7" }),
          ("u2", { uuid := "u2", ip := "7.7.7.7" }),
          ("u3", { uuid := "u3", ip := "7.7.7.7" })], 3⟩ "7.7.7.7" "").tasks = []) ∧
    (addClient (sampleStore false)
        ⟨[("u1", { uuid := "u1", ip := "7.7.7.7" }),
          ("u2", { uuid := "u2", ip := "7.7.7.7" }),
          ("u3", { uuid := "u3", ip := "7.7.7.7" })], 3⟩ "7.7.7.7"
        "").state.clients.countIp "7.7.7.7" ≤ 3 :=
  ⟨(addClient_ip_limit (sampleStore false)
      ⟨[("u1", { uuid := "u1", ip := "7.7.7.7" }),
        ("u2", { uuid := "u2", ip := "7.7.7.7" }),
        ("u3", { uuid := "u3", ip := "7.7.7.7" })], 3⟩ "7.7.7.7" "").1 (by decide),
   (addClient_ip_limit (sampleStore false)
      ⟨[("u1", { uuid := "u1", ip := "7.7.7.7" }),
        ("u2", { uuid := "u2", ip := "7.7.7.7" }),
        ("u3", { uuid := "u3", ip := "7.7.7.7" })], 3⟩ "7.7.7.7" "").2 "7.7.7.7"
      (by decide)⟩

/-- C8: a successful admission stores the client and enqueues exactly one
hello frame `["s", identifier, rank, account-flag, badge]`, the badge being
the resolved badge, or the sentinel "null" when that badge is empty. -/
theorem addClient_hello_frame (P : PlayerStore) (st : HubState) (ip token : String)
    (hban : (resolveIdentity P ip token).2 = false)
    (hdup : (st.clients.load (resolveIdentity P ip token).1.uuid).isSome = false)
    (hip : st.clients.countIp ip < 3) :
    (addClient P st ip token).sent =
      [[Seg.str "s", Seg.str (resolveIdentity P ip token).1.uuid,
        Seg.int (resolveIdentity P ip token).1.rank,
        Seg.bool (resolveIdentity P ip token).1.account,
        Seg.str (if (resolveIdentity P ip token).1.badge = "" then "null"
                 else (resolveIdentity P ip token).1.badge)]] ∧
    ((addClient P st ip token).state.clients.load
      (resolveIdentity P ip token).1.uuid).isSome = true := by
  rw [addClient_success_eq P st ip token hban hdup hip]
  unfold successResult
  dsimp only
  constructor
  · simp
  · rw [Registry.store_eq_append _ _ _ (by simp only [finalClient_uuid]; exact hdup),
      finalClient_uuid, Registry.load_append_self _ _ _ hdup]
    rfl

/-- Witness for C8: an anonymous admission with empty badge receives exactly
`["s", "anon-1", 0, false, "null"]` and is stored. -/
theorem addClient_hello_frame_witness :
    (addClient (sampleStore false) ⟨[], 0⟩ "6.6.6.6" "").sent =
      [[Seg.str "s", Seg.str "anon-1", Seg.int 0, Seg.bool false, Seg.str "null"]] ∧
    ((addClient (sampleStore false) ⟨[], 0⟩ "6.6.6.6"
        "").state.clients.load "anon-1").isSome = true := by
  have h := addClient_hello_frame (sampleStore false) ⟨[], 0⟩ "6.6.6.6" ""
    (by decide) (by decide) (by decide)
  simpa using h

/-- C6: once a buffer passes whole-buffer validation, every frame obtained by
splitting on the message delimiter is processed independently (the per-frame
results are exactly the map of `processMsg` over the split, and the error list
aggregates the per-frame errors), and a frame with an unrecognized type tag
contributes an "unknown message type" error to the aggregated list. -/
theorem processMsgs_per_frame_processing (H : Handlers) (mdelim delim : String)
    (sender : SessionClient) (data : List Nat)
    (h1 : data.length ≤ 4096)
    (h2 : data.any (fun v => v < 32) = false)
    (h3 : utf8Valid data = true) :
    (processMsgs H mdelim delim sender data).results =
      (goSplit (utf8String data) mdelim).map (processMsg H delim sender) ∧
    (processMsgs H mdelim delim sender data).errs =
      ((goSplit (utf8String data) mdelim).map (processMsg H delim sender)).filterMap
        (fun r => r.err) ∧
    ∀ f ∈ goSplit (utf8String data) mdelim, ∀ (tag : String) (rest : List String),
      goSplit f delim = tag :: rest → tag ∉ knownTags →
        "unknown message type" ∈ (processMsgs H mdelim delim sender data).errs := by
  have hs : ¬ 4096 < data.length := by omega
  have hrw : processMsgs H mdelim delim sender data =
      { errs := ((goSplit (utf8String data) mdelim).map
          (processMsg H delim sender)).filterMap (fun r => r.err),
        results := (goSplit (utf8String data) mdelim).map (processMsg H delim sender) } := by
    unfold processMsgs
    simp [hs, h2, h3]
  refine ⟨by rw [hrw], by rw [hrw], ?_⟩
  intro f hf tag rest hsplit htag
  rw [hrw]
  have herr : (processMsg H delim sender f).err = some "unknown message type" := by
    unfold processMsg
    rw [hsplit]
    exact processMsgFields_unknown_tag H sender f tag rest htag
  exact List.mem_filterMap.mpr
    ⟨processMsg H delim sender f, List.mem_map_of_mem _ hf, herr⟩

/-- Witness for C6: the buffer "gsay,hi|badtag,x" (message delimiter "|",
field delimiter ",") passes validation; its second frame has the unknown tag
"badtag" and yields the "unknown message type" error in the aggregate. -/
theorem processMsgs_per_frame_processing_witness :
    ([103, 115, 97, 121, 44, 104, 105, 124, 98, 97, 100, 116, 97, 103, 44, 120] :
        List Nat).length ≤ 4096 ∧
    ([103, 115, 97, 121, 44, 104, 105, 124, 98, 97, 100, 116, 97, 103, 44, 120] :
        List Nat).any (fun v => v < 32) = false ∧
    utf8Valid [103, 115, 97, 121, 44, 104, 105, 124, 98, 97, 100, 116, 97, 103, 44, 120] =
      true ∧
    "badtag,x" ∈ goSplit
      (utf8String [103, 115, 97, 121, 44, 104, 105, 124, 98, 97, 100, 116, 97, 103, 44, 120])
      "|" ∧
    goSplit "badtag,x" "," = ["badtag", "x"] ∧
    "badtag" ∉ knownTags ∧
    "unknown message type" ∈ (processMsgs sampleHandlers "|" "," { }
      [103, 115, 97, 121, 44, 104, 105, 124, 98, 97, 100, 116, 97, 103, 44, 120]).errs :=
  ⟨by decide, by decide, by decide, by decide, by decide, by decide,
   (processMsgs_per_frame_processing sampleHandlers "|" "," { }
      [103, 115, 97, 121, 44, 104, 105, 124, 98, 97, 100, 116, 97, 103, 44, 120]
      (by decide) (by decide) (by decide)).2.2 "badtag,x" (by decide) "badtag" ["x"]
      (by decide) (by decide)⟩

/-- C7: a "pt" frame whose handler reports an error gets the fallback frame
`["pt", "null"]` enqueued to the sender alongside the propagated error, while
no frame with any other tag ever has `processMsg` itself enqueue a frame to
the sender. -/
theorem processMsg_pt_error_fallback (H : Handlers) (sender : SessionClient)
    (msgStr : String) :
    (∀ (rest : List String) (e : String), H.handlePt sender = some e →
      processMsgFields H sender msgStr ("pt" :: rest) =
        { err := some e, dispatched := some "pt",
          sent := [[Seg.str "pt", Seg.str "null"]], logs := [] }) ∧
    (∀ (tag : String) (rest : List String), tag ≠ "pt" →
      (processMsgFields H sender msgStr (tag :: rest)).sent = []) := by
  constructor
  · intro rest e he
    simp [processMsgFields, processMsgSwitch, he]
  · intro tag rest ht
    rw [processMsgFields_sent_eq]
    unfold processMsgSwitch
    split_ifs <;> simp_all

/-- Witness for C7: with a party handler that rejects, the frame "pt" gets the
fallback `["pt", "null"]`, while an "i" frame sends nothing. -/
theorem processMsg_pt_error_fallback_witness :
    (sampleHandlers.handlePt { } = some "player not in a party" ∧
     processMsgFields sampleHandlers { } "pt" ["pt"] =
       { err := some "player not in a party", dispatched := some "pt",
         sent := [[Seg.str "pt", Seg.str "null"]], logs := [] }) ∧
    ("i" ≠ "pt" ∧ (processMsgFields sampleHandlers { } "i" ["i"]).sent = []) :=
  ⟨⟨rfl, (processMsg_pt_error_fallback sampleHandlers { } "pt").1 []
      "player not in a party" rfl⟩,
   ⟨by decide, (processMsg_pt_error_fallback sampleHandlers { } "i").2 "i" []
      (by decide)⟩⟩

end Yno
